import Mathlib

/-!
Shallow embedding of the streamable-HTTP MCP transport
(`server/streamable_http.go`) and proofs about its behaviour.

JSON payloads are modelled by a small inductive `Json`; the Go standard
library's JSON parser and the engine (`MCPServer.HandleMessage`) are
treated as external collaborators: the handler observes the body only
through its shallow parse result, and the engine only through the
notifications it emits, the upgrade flag it may set, and its final
response.  The `http.ResponseWriter` is modelled by `RW`, which records
pending headers, the committed status line together with the header
snapshot taken when the status was written (later `Header().Set` calls
do not reach the wire, as in Go's `net/http`), and the ordered list of
body frames.
-/

namespace StreamableHTTP

/-- Minimal JSON value model for payloads crossing the transport. -/
inductive Json where
  | null
  | num (n : Int)
  | str (s : String)
  | obj (fields : List (String × Json))
deriving Repr

/-- One chunk written to the response body: an SSE event frame
(`writeSSEEvent`, i.e. the text `event: message` / `data: <json>`), a direct
JSON encoding (`json.NewEncoder(w).Encode`), or plain text (`http.Error`). -/
inductive Frame where
  | sse (payload : Json)
  | jsonBody (payload : Json)
  | text (s : String)
deriving Repr

/-- Set a header key in a header list, replacing any previous value
(Go `http.Header.Set`). -/
def setAssoc : List (String × String) → String → String → List (String × String)
  | [], k, v => [(k, v)]
  | (k', v') :: rest, k, v =>
      if k' = k then (k, v) :: rest else (k', v') :: setAssoc rest k v

/-- Look up a header key (Go `http.Header.Get`, returning the first value). -/
def headerGet : List (String × String) → String → Option String
  | [], _ => none
  | (k', v') :: rest, k => if k' = k then some v' else headerGet rest k

/-- Model of `http.ResponseWriter`: `pending` is the mutable header map,
`committed` is the status code and header snapshot frozen by the first
`WriteHeader`, `body` the frames written so far. -/
structure RW where
  pending : List (String × String)
  committed : Option (Nat × List (String × String))
  body : List Frame

def emptyRW : RW := ⟨[], none, []⟩

def RW.setHeader (w : RW) (k v : String) : RW :=
  { w with pending := setAssoc w.pending k v }

/-- `WriteHeader`: commits the status and snapshots the headers; a second
call is a no-op (Go logs "superfluous WriteHeader" and ignores it). -/
def RW.writeHeader (w : RW) (status : Nat) : RW :=
  match w.committed with
  | some _ => w
  | none => { w with committed := some (status, w.pending) }

/-- A body write; Go implicitly commits status 200 on the first `Write`
if `WriteHeader` was never called. -/
def RW.writeFrame (w : RW) (f : Frame) : RW :=
  let w' := w.writeHeader 200
  { w' with body := w'.body ++ [f] }

/-- Status code on the wire, `none` while nothing has been committed. -/
def RW.statusOf (w : RW) : Option Nat := w.committed.map Prod.fst

/-- Header value on the wire (from the snapshot taken at `WriteHeader`). -/
def RW.wireHeader (w : RW) (k : String) : Option String :=
  match w.committed with
  | none => none
  | some (_, hs) => headerGet hs k

/-- Go `http.Error`: text/plain headers, the status code, and the message
followed by a newline. -/
def httpError (w : RW) (msg : String) (code : Nat) : RW :=
  ((((w.setHeader "Content-Type" "text/plain; charset=utf-8").setHeader
      "X-Content-Type-Options" "nosniff").writeHeader code).writeFrame
    (Frame.text (msg ++ "\n")))

/-- `writeSSEEvent`: marshals the payload and writes one
`event: message` / `data:` frame. -/
def writeSSEEvent (w : RW) (data : Json) : RW := w.writeFrame (Frame.sse data)

/-- Modelled from the spec: `mcp.PARSE_ERROR`, the JSON-RPC parse-error
code `-32700` (the `mcp` package is not part of the transport source). -/
def PARSE_ERROR : Int := -32700

/-- Modelled from the spec: `createErrorResponse` (defined in the engine
package, outside the transport source) builds the JSON-RPC error envelope
with the given id, code and human-readable message. -/
def createErrorResponse (id : Json) (code : Int) (message : String) : Json :=
  Json.obj [("jsonrpc", Json.str "2.0"), ("id", id),
    ("error", Json.obj [("code", Json.num code), ("message", Json.str message)])]

/-- `writeJSONRPCError`: JSON content type, HTTP 400, encoded error envelope. -/
def writeJSONRPCError (w : RW) (id : Json) (code : Int) (message : String) : RW :=
  (((w.setHeader "Content-Type" "application/json").writeHeader 400).writeFrame
    (Frame.jsonBody (createErrorResponse id code message)))

/-- ASCII lower-casing of one character. -/
def toLowerAscii (c : Char) : Char :=
  if 'A' ≤ c ∧ c ≤ 'Z' then Char.ofNat (c.toNat + 32) else c

def isSpaceChar (c : Char) : Bool :=
  c = ' ' ∨ c = '\t' ∨ c = '\n' ∨ c = '\r'

/-- Drop whitespace from both ends. -/
def trimChars (l : List Char) : List Char :=
  ((l.dropWhile isSpaceChar).reverse.dropWhile isSpaceChar).reverse

/-- Model of `mime.ParseMediaType` restricted to what the handler needs:
strip parameters after the first `;`, trim surrounding whitespace,
lower-case the media type, and fail on an empty or token-invalid result. -/
def parseMediaType (v : String) : Option String :=
  let base := (trimChars (v.data.takeWhile (· ≠ ';'))).map toLowerAscii
  if base = [] then none
  else if base.any isSpaceChar then none
  else some (String.mk base)

/-! ### Session id managers

`github.com/google/uuid` is an external dependency; its `UUID.String`
(lower-case hex in 8-4-4-4-12 groups) and `uuid.Parse` (length dispatch over
the canonical, urn, braced and 32-hex forms, hyphen checks at offsets
8/13/18/23, hex pair decoding via the `xvalues` table) are embedded below so
that `InsecureStatefulSessionIdManager.Validate` can be analysed.  A UUID
value is a list of 16 bytes. -/

/-- Lower-case hex digit for a nibble (`encodeHex` uses
the alphabet 0-9 a-f). -/
def hexDigitChar (n : Nat) : Char :=
  if n < 10 then Char.ofNat (48 + n) else Char.ofNat (87 + n)

/-- `hex.Encode`: each byte becomes two lower-case hex characters. -/
def hexEncode : List Nat → List Char
  | [] => []
  | b :: bs => hexDigitChar (b / 16) :: hexDigitChar (b % 16) :: hexEncode bs

/-- `UUID.String`: hex groups of 4, 2, 2, 2 and 6 bytes joined by hyphens. -/
def uuidStringChars (bs : List Nat) : List Char :=
  hexEncode (bs.take 4) ++
    '-' :: (hexEncode ((bs.drop 4).take 2) ++
      '-' :: (hexEncode ((bs.drop 6).take 2) ++
        '-' :: (hexEncode ((bs.drop 8).take 2) ++
          '-' :: hexEncode (bs.drop 10))))

/-- The `xvalues` table of `google/uuid`: value of one hex character. -/
def xvalue (c : Char) : Option Nat :=
  if '0' ≤ c ∧ c ≤ '9' then some (c.toNat - 48)
  else if 'a' ≤ c ∧ c ≤ 'f' then some (c.toNat - 87)
  else if 'A' ≤ c ∧ c ≤ 'F' then some (c.toNat - 55)
  else none

/-- `xtob`: decode a pair of hex characters into one byte. -/
def xtob (c1 c2 : Char) : Option Nat :=
  match xvalue c1, xvalue c2 with
  | some h, some l => some (h * 16 + l)
  | _, _ => none

/-- Decode a run of hex characters pairwise (fails on odd length or on a
non-hex character). -/
def parseHexPairs : List Char → Option (List Nat)
  | [] => some []
  | c1 :: c2 :: rest =>
      (match xtob c1 c2, parseHexPairs rest with
       | some b, some bs => some (b :: bs)
       | _, _ => none)
  | _ => none

/-- The canonical-form body of `uuid.Parse`: hyphens at offsets 8, 13, 18
and 23, hex pairs at the fixed offsets in between.  Only the first 36
characters are inspected (exactly as the Go code indexes them). -/
def parseStd36 (s : List Char) : Option (List Nat) :=
  if s[8]? = some '-' ∧ s[13]? = some '-' ∧ s[18]? = some '-' ∧ s[23]? = some '-' then
    match parseHexPairs (s.take 8), parseHexPairs ((s.drop 9).take 4),
        parseHexPairs ((s.drop 14).take 4), parseHexPairs ((s.drop 19).take 4),
        parseHexPairs ((s.drop 24).take 12) with
    | some a, some b, some c, some d, some e => some (a ++ (b ++ (c ++ (d ++ e))))
    | _, _, _, _, _ => none
  else none

/-- `uuid.Parse`: dispatch on the length — canonical 36, urn 45,
braced 38 (the closing brace is not checked, as in the Go source),
and 32 raw hex characters. -/
def uuidParse (s : List Char) : Option (List Nat) :=
  if s.length = 36 then parseStd36 s
  else if s.length = 45 then
    (if (s.take 9).map toLowerAscii = "urn:uuid:".data then parseStd36 (s.drop 9)
     else none)
  else if s.length = 38 then parseStd36 (s.drop 1)
  else if s.length = 32 then parseHexPairs s
  else none

/-- The `SessionIdManager` interface: `Generate`, `Validate` returning
`(isTerminated, err)`, and `Terminate` returning `(isNotAllowed, err)`.
Errors are modelled as `Option String`. -/
structure SessionIdManager where
  generate : String
  validate : String → Bool × Option String
  terminate : String → Bool × Option String

/-- The `idPrefix` constant `"mcp-session-"`. -/
def idPrefixStr : String := "mcp-session-"

/-- `InsecureStatefulSessionIdManager.Validate`: require the
`mcp-session-` prefix, then `uuid.Parse` on the remainder; the first
component (`isTerminated`) is `false` on every path. -/
def validateInsecure (sessionID : String) : Bool × Option String :=
  if idPrefixStr.data.isPrefixOf sessionID.data then
    match uuidParse (sessionID.data.drop idPrefixStr.length) with
    | some _ => (false, none)
    | none => (false, some ("invalid session id: " ++ sessionID))
  else (false, some ("invalid session id: " ++ sessionID))

/-- `InsecureStatefulSessionIdManager` with the fresh UUID drawn by
`uuid.New()` supplied as the 16-byte list `u`. -/
def insecureStatefulManager (u : List Nat) : SessionIdManager where
  generate := idPrefixStr ++ String.mk (uuidStringChars u)
  validate := validateInsecure
  terminate := fun _ => (false, none)

/-- `StatelessSessionIdManager`: empty id, never rejects, never refuses
termination. -/
def statelessManager : SessionIdManager where
  generate := ""
  validate := fun _ => (false, none)
  terminate := fun _ => (false, none)

/-! ### Sessions, per-session stores and server state -/

/-- Modelled from the spec: `mcp.LoggingLevel` (the `mcp` package is not
part of the transport source); only the default `error` matters here. -/
inductive LoggingLevel where
  | debug | info | notice | warning | error | critical | alert | emergency
deriving Repr, DecidableEq

/-- The three process-wide per-session maps of `StreamableHTTPServer`:
`sessionTools` (`sessionToolsStore`), `sessionLogLevels`
(`sessionLogLevelsStore`) and `sessionRequestIDs` (the `sync.Map` of
`*atomic.Int64` counters), all keyed by session id. -/
structure ServerState (Tool : Type) where
  sessionTools : String → Option (List (String × Tool))
  sessionLogLevels : String → Option LoggingLevel
  sessionRequestIDs : String → Option Int

/-- `streamableHttpSession` (the notification channel and the
`upgradeToSSE` flag are modelled at the call sites that consume them). -/
structure StreamableHttpSession where
  sessionID : String
  params : List (String × String)

def newStreamableHttpSession (sessionID : String)
    (params : List (String × String)) : StreamableHttpSession :=
  ⟨sessionID, params⟩

/-- `sessionToolsStore.set` via `SetSessionTools`: whole-map swap for this
session's id. -/
def StreamableHttpSession.SetSessionTools {Tool : Type}
    (sess : StreamableHttpSession) (st : ServerState Tool)
    (tools : List (String × Tool)) : ServerState Tool :=
  { st with sessionTools := fun k =>
      if k = sess.sessionID then some tools else st.sessionTools k }

/-- `sessionToolsStore.get` via `GetSessionTools`. -/
def StreamableHttpSession.GetSessionTools {Tool : Type}
    (sess : StreamableHttpSession) (st : ServerState Tool) :
    Option (List (String × Tool)) :=
  st.sessionTools sess.sessionID

/-- `sessionLogLevelsStore.set` via `SetLogLevel`. -/
def StreamableHttpSession.SetLogLevel {Tool : Type}
    (sess : StreamableHttpSession) (st : ServerState Tool)
    (level : LoggingLevel) : ServerState Tool :=
  { st with sessionLogLevels := fun k =>
      if k = sess.sessionID then some level else st.sessionLogLevels k }

/-- `sessionLogLevelsStore.get` via `GetLogLevel`: missing keys read as
`error`. -/
def StreamableHttpSession.GetLogLevel {Tool : Type}
    (sess : StreamableHttpSession) (st : ServerState Tool) : LoggingLevel :=
  match st.sessionLogLevels sess.sessionID with
  | none => LoggingLevel.error
  | some v => v

/-- Two's-complement wrap-around of a signed 64-bit value
(`9223372036854775808 = 2 ^ 63`, `18446744073709551616 = 2 ^ 64`):
the arithmetic of Go's `int64`. -/
def wrapInt64 (n : Int) : Int :=
  (n + 9223372036854775808) % 18446744073709551616 - 9223372036854775808

/-- `nextRequestID`: `LoadOrStore` a zero counter for the session, then
`Add(1)` and return the new value.  The counter is an `atomic.Int64`, so
the increment wraps around past `math.MaxInt64`. -/
def nextRequestID (m : String → Option Int) (sessionID : String) :
    Int × (String → Option Int) :=
  let cur := (m sessionID).getD 0
  let v := wrapInt64 (cur + 1)
  (v, fun k => if k = sessionID then some v else m k)

/-! ### POST handler -/

/-- Shallow parse of the request body, as the handler observes it:
`io.ReadAll` failed, `json.Unmarshal` failed, or the `method` field was
extracted (empty string when absent). -/
inductive BodyParse where
  | readError (errMsg : String)
  | invalidJSON
  | parsed (method : String)

/-- The inputs of one POST request. -/
structure PostRequest where
  contentType : String
  body : BodyParse
  sessionHeader : String
  queryParams : List (String × String)
  ctxCancelled : Bool

/-- What one engine invocation (`HandleMessage` plus the handlers it runs)
does, as the transport observes it: the notifications sent to the session
channel in order, the final value of the session's `upgradeToSSE` flag, and
the response (or `none` for a pure notification). -/
structure EngineRun where
  notifications : List Json
  setUpgrade : Bool
  response : Option Json

/-- State shared by the two writers of one POST response: the response
writer, the `upgradedHeader` flag, and whether the `done` channel has been
closed. -/
structure PostWriterState where
  w : RW
  upgradedHeader : Bool
  doneClosed : Bool

def initialWriterState : PostWriterState :=
  { w := emptyRW, upgradedHeader := false, doneClosed := false }

/-- One critical section of the notification-reader goroutine: skip if
`done` is already closed; otherwise write the SSE headers once and then one
SSE event frame. -/
def notifWriterStep (st : PostWriterState) (nt : Json) : PostWriterState :=
  if st.doneClosed then st
  else
    let w1 :=
      if st.upgradedHeader then st.w
      else ((((st.w.setHeader "Content-Type" "text/event-stream").setHeader
          "Connection" "keep-alive").setHeader "Cache-Control" "no-cache").writeHeader 200)
    { w := writeSSEEvent w1 nt, upgradedHeader := true, doneClosed := st.doneClosed }

/-- The final critical section of `handlePost` (after `HandleMessage`
returns a non-nil response): close `done`, then either emit the response as
one more SSE event (when the session's `upgradeToSSE` flag is set) or
JSON-encode it, adding the `Mcp-Session-Id` header for an initialize
request with a non-empty session id. -/
def finalWriteCS (st : PostWriterState) (upgradeToSSE : Bool) (isInit : Bool)
    (sessionID : String) (resp : Json) : PostWriterState :=
  if upgradeToSSE then
    let w1 :=
      if st.upgradedHeader then st.w
      else ((((st.w.setHeader "Content-Type" "text/event-stream").setHeader
          "Connection" "keep-alive").setHeader "Cache-Control" "no-cache").writeHeader 200)
    { w := writeSSEEvent w1 resp, upgradedHeader := true, doneClosed := true }
  else
    let w1 := st.w.setHeader "Content-Type" "application/json"
    let w2 := if isInit ∧ sessionID ≠ "" then w1.setHeader "Mcp-Session-Id" sessionID else w1
    { w := (w2.writeHeader 200).writeFrame (Frame.jsonBody resp),
      upgradedHeader := st.upgradedHeader, doneClosed := true }

/-- The outcome of `handlePost`: the response writer, whether
`HandleMessage` was invoked, and the id of the ephemeral session that was
created for the engine (`""` when the request was rejected before a session
was built). -/
structure PostOutcome where
  w : RW
  engineCalled : Bool
  sessionID : String

/-- The tail of `handlePost` once a session id has been acquired: build the
ephemeral session, run the engine while the notification reader drains the
channel (the canonical schedule in which every emitted notification is
written before the final critical section), then 202 for a nil response or
the final framing otherwise (nothing is written if the request context was
cancelled). -/
def postCore (sessionID : String) (isInit : Bool) (req : PostRequest)
    (engine : EngineRun) : PostOutcome :=
  let sess := newStreamableHttpSession sessionID req.queryParams
  let st1 := engine.notifications.foldl notifWriterStep initialWriterState
  match engine.response with
  | none => { w := st1.w.writeHeader 202, engineCalled := true, sessionID := sess.sessionID }
  | some resp =>
      if req.ctxCancelled then
        { w := st1.w, engineCalled := true, sessionID := sess.sessionID }
      else
        { w := (finalWriteCS st1 engine.setUpgrade isInit sessionID resp).w,
          engineCalled := true, sessionID := sess.sessionID }

/-- `handlePost`: media-type check, body read and shallow JSON parse,
initialize classification, session acquisition through the policy, then
`postCore`. -/
def handlePost (mgr : SessionIdManager) (req : PostRequest)
    (engine : EngineRun) : PostOutcome :=
  if parseMediaType req.contentType = some "application/json" then
    match req.body with
    | BodyParse.readError e =>
        { w := writeJSONRPCError emptyRW Json.null PARSE_ERROR
            ("read request body error: " ++ e),
          engineCalled := false, sessionID := "" }
    | BodyParse.invalidJSON =>
        { w := writeJSONRPCError emptyRW Json.null PARSE_ERROR
            "request body is not valid json",
          engineCalled := false, sessionID := "" }
    | BodyParse.parsed method =>
        if method = "initialize" then postCore mgr.generate true req engine
        else
          let v := mgr.validate req.sessionHeader
          if v.2.isSome then
            { w := httpError emptyRW "Invalid session ID" 400,
              engineCalled := false, sessionID := "" }
          else if v.1 then
            { w := httpError emptyRW "Session terminated" 404,
              engineCalled := false, sessionID := "" }
          else postCore req.sessionHeader false req engine
  else
    { w := httpError emptyRW "Invalid content type: must be 'application/json'" 400,
      engineCalled := false, sessionID := "" }

/-! ### Interleaving model for the two POST writers

Both writers run entirely inside the per-request mutex, so every possible
execution is a sequence of atomic critical sections: the notification
reader's sections (in channel FIFO order, i.e. emission order) with the
final-response section somewhere among them.  `runSched` executes such a
schedule. -/

inductive PostWriteEvent where
  | notif (nt : Json)
  | finalResp

/-- Parameters of the final critical section. -/
structure FinalCfg where
  upgradeToSSE : Bool
  isInit : Bool
  sessionID : String
  resp : Json

def schedStep (cfg : FinalCfg) (st : PostWriterState) : PostWriteEvent → PostWriterState
  | PostWriteEvent.notif nt => notifWriterStep st nt
  | PostWriteEvent.finalResp =>
      finalWriteCS st cfg.upgradeToSSE cfg.isInit cfg.sessionID cfg.resp

def runSched (cfg : FinalCfg) (evs : List PostWriteEvent) : PostWriterState :=
  evs.foldl (schedStep cfg) initialWriterState

/-! ### GET handler -/

/-- The inputs of one GET request: the session header, the random UUID
string that `uuid.New().String()` would produce if drawn, the query
parameters, the engine's `RegisterSession` verdict and whether the response
writer supports `http.Flusher`. -/
structure GetRequest where
  sessionHeader : String
  freshUUID : String
  queryParams : List (String × String)
  registerError : Option String
  flusherOk : Bool

structure GetOutcome where
  w : RW
  usedSessionID : String
  registered : Bool

/-- `handleGet` up to the streaming loop: take the header session id (never
consulting the session-id policy), fabricate a random internal id when the
header is absent, register with the engine (400 on failure), then write the
event-stream headers with status 200 (the flusher check happens after the
status is committed, so its `http.Error` only appends a body frame). -/
def handleGet (mgr : SessionIdManager) (req : GetRequest) : GetOutcome :=
  let sessionID := if req.sessionHeader = "" then req.freshUUID else req.sessionHeader
  let sess := newStreamableHttpSession sessionID req.queryParams
  match req.registerError with
  | some e =>
      { w := httpError emptyRW ("Session registration failed: " ++ e) 400,
        usedSessionID := sess.sessionID, registered := false }
  | none =>
      let w1 := ((((emptyRW.setHeader "Content-Type" "text/event-stream").setHeader
          "Cache-Control" "no-cache").setHeader "Connection" "keep-alive").writeHeader 200)
      if req.flusherOk then
        { w := w1, usedSessionID := sess.sessionID, registered := true }
      else
        { w := httpError w1 "Streaming unsupported" 500,
          usedSessionID := sess.sessionID, registered := true }

/-- The heartbeat `ping` message built on each tick of the pinger. -/
def pingMessage (n : Int) : Json :=
  Json.obj [("jsonrpc", Json.str "2.0"), ("id", Json.num n),
    ("method", Json.str "ping")]

/-- The pinger goroutine over `k` ticks: each tick enqueues a `ping`
request whose id is `nextRequestID` for the session. -/
def pingerRun (m : String → Option Int) (sessionID : String) :
    Nat → List Json × (String → Option Int)
  | 0 => ([], m)
  | Nat.succ k =>
      let p := nextRequestID m sessionID
      let rest := pingerRun p.2 sessionID k
      (pingMessage p.1 :: rest.1, rest.2)

/-! ### DELETE handler -/

/-- `handleDelete`: call the policy's `Terminate` (error first, then
`notAllowed`), then purge the three per-session maps and respond 200. -/
def handleDelete {Tool : Type} (mgr : SessionIdManager) (st : ServerState Tool)
    (sessionID : String) : ServerState Tool × RW :=
  match mgr.terminate sessionID with
  | (_, some e) =>
      (st, httpError emptyRW ("Session termination failed: " ++ e) 500)
  | (true, none) =>
      (st, httpError emptyRW "Session termination not allowed" 405)
  | (false, none) =>
      ({ sessionTools := fun k => if k = sessionID then none else st.sessionTools k,
         sessionLogLevels := fun k => if k = sessionID then none else st.sessionLogLevels k,
         sessionRequestIDs := fun k => if k = sessionID then none else st.sessionRequestIDs k },
       emptyRW.writeHeader 200)

/-! ### Sample custom policies (§4.1 allows custom strategies) used to
exercise the error paths of the handlers. -/

/-- A policy whose `Terminate` fails. -/
def failingTerminationManager : SessionIdManager where
  generate := ""
  validate := fun _ => (false, none)
  terminate := fun _ => (false, some "backend down")

/-- A policy that forbids client termination. -/
def refusingTerminationManager : SessionIdManager where
  generate := ""
  validate := fun _ => (false, none)
  terminate := fun _ => (true, none)

/-- A policy whose `Validate` reports every id as terminated. -/
def terminatedValidateManager : SessionIdManager where
  generate := ""
  validate := fun _ => (true, none)
  terminate := fun _ => (false, none)

/-- A concrete server state with entries for session `"sid"`, used to
exercise the DELETE purge. -/
def demoState : ServerState Nat where
  sessionTools := fun k => if k = "sid" then some [("t", 1)] else none
  sessionLogLevels := fun k => if k = "sid" then some LoggingLevel.debug else none
  sessionRequestIDs := fun k => if k = "sid" then some 3 else none

/-! ## Theorems -/

theorem string_eq_of_data_eq {s t : String} (h : s.data = t.data) : s = t := by
  cases s; cases t; exact congrArg String.mk h

theorem RW.body_setHeader (w : RW) (k v : String) : (w.setHeader k v).body = w.body := rfl

theorem RW.body_writeHeader (w : RW) (s : Nat) : (w.writeHeader s).body = w.body := by
  unfold RW.writeHeader
  cases w.committed <;> rfl

theorem RW.body_writeFrame (w : RW) (f : Frame) :
    (w.writeFrame f).body = w.body ++ [f] := by
  simp [RW.writeFrame, RW.body_writeHeader]

theorem notifWriterStep_done (st : PostWriterState) (nt : Json)
    (h : st.doneClosed = true) : notifWriterStep st nt = st := by
  simp [notifWriterStep, h]

theorem notifWriterStep_open (st : PostWriterState) (nt : Json)
    (h : st.doneClosed = false) :
    (notifWriterStep st nt).w.body = st.w.body ++ [Frame.sse nt]
    ∧ (notifWriterStep st nt).doneClosed = false := by
  by_cases hu : st.upgradedHeader <;>
    simp [notifWriterStep, h, hu, writeSSEEvent, RW.body_writeFrame,
      RW.body_writeHeader, RW.body_setHeader]

theorem finalWriteCS_body (st : PostWriterState) (u i : Bool) (sid : String)
    (r : Json) :
    (finalWriteCS st u i sid r).w.body
      = st.w.body ++ [if u then Frame.sse r else Frame.jsonBody r]
    ∧ (finalWriteCS st u i sid r).doneClosed = true := by
  by_cases hval : u
  · by_cases hup : st.upgradedHeader <;>
      simp [finalWriteCS, hval, hup, writeSSEEvent, RW.body_writeFrame,
        RW.body_writeHeader, RW.body_setHeader]
  · by_cases hid : (i = true) ∧ sid ≠ "" <;>
      simp [finalWriteCS, hval, hid, RW.body_writeFrame, RW.body_writeHeader,
        RW.body_setHeader]

theorem foldl_notifs_closed (cfg : FinalCfg) (l : List Json) :
    ∀ st : PostWriterState, st.doneClosed = true →
      (l.map PostWriteEvent.notif).foldl (schedStep cfg) st = st := by
  induction l with
  | nil => intro st _; rfl
  | cons n rest ih =>
      intro st h
      have : schedStep cfg st (PostWriteEvent.notif n) = st := notifWriterStep_done st n h
      simpa [this] using ih st h

theorem foldl_notifs_open (cfg : FinalCfg) (l : List Json) :
    ∀ st : PostWriterState, st.doneClosed = false →
      ((l.map PostWriteEvent.notif).foldl (schedStep cfg) st).w.body
          = st.w.body ++ l.map Frame.sse
      ∧ ((l.map PostWriteEvent.notif).foldl (schedStep cfg) st).doneClosed = false := by
  induction l with
  | nil => intro st h; simpa using h
  | cons n rest ih =>
      intro st h
      obtain ⟨hb, hd⟩ := notifWriterStep_open st n h
      obtain ⟨ihb, ihd⟩ := ih (notifWriterStep st n) hd
      constructor
      · simp [schedStep, ihb, hb]
      · simpa [schedStep] using ihd

/-- C5: for every interleaving of the POST dual-writer critical sections —
the notification reader's sections in emission (channel FIFO) order with
the final-response section anywhere among them — the response body consists
of exactly the notifications written before the final section, as SSE
frames in emission order, followed by the final response frame; because the
`done` signal is closed inside the final critical section before the mutex
is released, no notification write lands after the final response. -/
theorem post_notifs_in_order_final_strictly_last (cfg : FinalCfg) (l1 l2 : List Json) :
    (runSched cfg (l1.map PostWriteEvent.notif ++
        PostWriteEvent.finalResp :: l2.map PostWriteEvent.notif)).w.body
      = l1.map Frame.sse ++
        [if cfg.upgradeToSSE then Frame.sse cfg.resp else Frame.jsonBody cfg.resp] := by
  unfold runSched
  rw [List.foldl_append]
  obtain ⟨hb1, hd1⟩ := foldl_notifs_open cfg l1 initialWriterState rfl
  rw [List.foldl_cons]
  have hstep : schedStep cfg ((l1.map PostWriteEvent.notif).foldl (schedStep cfg)
      initialWriterState) PostWriteEvent.finalResp
      = finalWriteCS ((l1.map PostWriteEvent.notif).foldl (schedStep cfg)
          initialWriterState) cfg.upgradeToSSE cfg.isInit cfg.sessionID cfg.resp := rfl
  rw [hstep]
  have hfin := finalWriteCS_body ((l1.map PostWriteEvent.notif).foldl (schedStep cfg)
      initialWriterState) cfg.upgradeToSSE cfg.isInit cfg.sessionID cfg.resp
  rw [foldl_notifs_closed cfg l2 _ hfin.2, hfin.1, hb1]
  simp [initialWriterState, emptyRW]

theorem xvalue_hexDigitChar (d : Nat) (hd : d < 16) :
    xvalue (hexDigitChar d) = some d := by
  interval_cases d <;> decide

theorem xtob_hexPair (b : Nat) (hb : b < 256) :
    xtob (hexDigitChar (b / 16)) (hexDigitChar (b % 16)) = some b := by
  have h1 : b / 16 < 16 := by omega
  have h2 : b % 16 < 16 := by omega
  simp [xtob, xvalue_hexDigitChar _ h1, xvalue_hexDigitChar _ h2]
  omega

theorem parseHexPairs_hexEncode (bs : List Nat) (h : ∀ b ∈ bs, b < 256) :
    parseHexPairs (hexEncode bs) = some bs := by
  induction bs with
  | nil => rfl
  | cons b rest ih =>
      have hb : b < 256 := h b (by simp)
      have hrest : ∀ x ∈ rest, x < 256 := fun x hx => h x (by simp [hx])
      simp [hexEncode, parseHexPairs, xtob_hexPair b hb, ih hrest]

theorem cons_of_len (l : List Nat) (n : Nat) (h : l.length = n + 1) :
    ∃ a t, l = a :: t ∧ t.length = n := by
  cases l with
  | nil => simp at h
  | cons a t => exact ⟨a, t, rfl, by simpa using h⟩

theorem uuidParse_uuidString (bs : List Nat) (hlen : bs.length = 16)
    (hb : ∀ b ∈ bs, b < 256) :
    uuidParse (uuidStringChars bs) = some bs := by
  obtain ⟨b0, bs, rfl, hl0⟩ := cons_of_len bs 15 hlen
  obtain ⟨b1, bs, rfl, hl1⟩ := cons_of_len bs 14 hl0
  obtain ⟨b2, bs, rfl, hl2⟩ := cons_of_len bs 13 hl1
  obtain ⟨b3, bs, rfl, hl3⟩ := cons_of_len bs 12 hl2
  obtain ⟨b4, bs, rfl, hl4⟩ := cons_of_len bs 11 hl3
  obtain ⟨b5, bs, rfl, hl5⟩ := cons_of_len bs 10 hl4
  obtain ⟨b6, bs, rfl, hl6⟩ := cons_of_len bs 9 hl5
  obtain ⟨b7, bs, rfl, hl7⟩ := cons_of_len bs 8 hl6
  obtain ⟨b8, bs, rfl, hl8⟩ := cons_of_len bs 7 hl7
  obtain ⟨b9, bs, rfl, hl9⟩ := cons_of_len bs 6 hl8
  obtain ⟨b10, bs, rfl, hl10⟩ := cons_of_len bs 5 hl9
  obtain ⟨b11, bs, rfl, hl11⟩ := cons_of_len bs 4 hl10
  obtain ⟨b12, bs, rfl, hl12⟩ := cons_of_len bs 3 hl11
  obtain ⟨b13, bs, rfl, hl13⟩ := cons_of_len bs 2 hl12
  obtain ⟨b14, bs, rfl, hl14⟩ := cons_of_len bs 1 hl13
  obtain ⟨b15, bs, rfl, hl15⟩ := cons_of_len bs 0 hl14
  have hnil : bs = [] := List.eq_nil_of_length_eq_zero hl15
  subst hnil
  have h0 : b0 < 256 := hb b0 (by simp)
  have h1 : b1 < 256 := hb b1 (by simp)
  have h2 : b2 < 256 := hb b2 (by simp)
  have h3 : b3 < 256 := hb b3 (by simp)
  have h4 : b4 < 256 := hb b4 (by simp)
  have h5 : b5 < 256 := hb b5 (by simp)
  have h6 : b6 < 256 := hb b6 (by simp)
  have h7 : b7 < 256 := hb b7 (by simp)
  have h8 : b8 < 256 := hb b8 (by simp)
  have h9 : b9 < 256 := hb b9 (by simp)
  have h10 : b10 < 256 := hb b10 (by simp)
  have h11 : b11 < 256 := hb b11 (by simp)
  have h12 : b12 < 256 := hb b12 (by simp)
  have h13 : b13 < 256 := hb b13 (by simp)
  have h14 : b14 < 256 := hb b14 (by simp)
  have h15 : b15 < 256 := hb b15 (by simp)
  simp [uuidStringChars, hexEncode, uuidParse, parseStd36, parseHexPairs,
    xtob_hexPair b0 h0, xtob_hexPair b1 h1, xtob_hexPair b2 h2,
    xtob_hexPair b3 h3, xtob_hexPair b4 h4, xtob_hexPair b5 h5,
    xtob_hexPair b6 h6, xtob_hexPair b7 h7, xtob_hexPair b8 h8,
    xtob_hexPair b9 h9, xtob_hexPair b10 h10, xtob_hexPair b11 h11,
    xtob_hexPair b12 h12, xtob_hexPair b13 h13, xtob_hexPair b14 h14,
    xtob_hexPair b15 h15]

theorem isPrefixOf_append_self (l m : List Char) : l.isPrefixOf (l ++ m) = true :=
  List.isPrefixOf_iff_prefix.mpr ⟨m, rfl⟩

/-- C7: round-trip of the insecure-stateful policy.  `Validate` accepts
every id produced by `Generate` with `(isTerminated = false, no error)`;
every string that is not the `mcp-session-` prefix followed by a string
that `uuid.Parse` accepts is rejected with an error; and `Validate` never
reports `isTerminated = true`. -/
theorem insecure_policy_roundtrip :
    (∀ u : List Nat, u.length = 16 → (∀ b ∈ u, b < 256) →
        validateInsecure ((insecureStatefulManager u).generate) = (false, none))
    ∧ (∀ s : String,
        (¬ ∃ t : String, s = idPrefixStr ++ t ∧ (uuidParse t.data).isSome) →
        (validateInsecure s).2.isSome)
    ∧ (∀ s : String, (validateInsecure s).1 = false) := by
  refine ⟨?_, ?_, ?_⟩
  · intro u hlen hbnd
    have hdata : ((insecureStatefulManager u).generate).data
        = idPrefixStr.data ++ uuidStringChars u := String.data_append _ _
    have hpre : idPrefixStr.data.isPrefixOf ((insecureStatefulManager u).generate).data
        = true := by rw [hdata]; exact isPrefixOf_append_self _ _
    have hdrop : ((insecureStatefulManager u).generate).data.drop idPrefixStr.length
        = uuidStringChars u := by rw [hdata]; exact List.drop_left _ _
    simp [validateInsecure, hpre, hdrop, uuidParse_uuidString u hlen hbnd]
  · intro s hno
    by_cases hp : idPrefixStr.data.isPrefixOf s.data
    · obtain ⟨m, hm⟩ := List.isPrefixOf_iff_prefix.mp hp
      have hs : s = idPrefixStr ++ String.mk m := by
        apply string_eq_of_data_eq
        rw [String.data_append]
        exact hm.symm
      have hdrop : s.data.drop idPrefixStr.length = m := by
        rw [← hm]; exact List.drop_left _ _
      cases hup : uuidParse m with
      | none => simp [validateInsecure, hp, hdrop, hup]
      | some v => exact absurd ⟨String.mk m, hs, by simp [hup]⟩ hno
    · simp [validateInsecure, hp]
  · intro s
    by_cases hp : idPrefixStr.data.isPrefixOf s.data
    · cases hup : uuidParse (s.data.drop idPrefixStr.length) with
      | none => simp [validateInsecure, hp, hup]
      | some v => simp [validateInsecure, hp, hup]
    · simp [validateInsecure, hp]

/-- Witness for C7 at concrete inputs: the all-zero UUID round-trips, and
the prefix-less string `"nope"` is rejected with `isTerminated = false`. -/
theorem insecure_policy_roundtrip_witness :
    validateInsecure ((insecureStatefulManager (List.replicate 16 0)).generate)
        = (false, none)
    ∧ (validateInsecure "nope").2.isSome
    ∧ (validateInsecure "nope").1 = false := by
  refine ⟨?_, ?_, ?_⟩
  · exact insecure_policy_roundtrip.1 (List.replicate 16 0) (by decide) (by decide)
  · apply insecure_policy_roundtrip.2.1
    rintro ⟨t, ht, -⟩
    have hpre : idPrefixStr.data.isPrefixOf (String.data "nope") = true := by
      rw [ht, String.data_append]
      exact isPrefixOf_append_self _ _
    exact absurd hpre (by decide)
  · exact insecure_policy_roundtrip.2.2 "nope"

/-- C3: on a well-formed non-initialize POST, the `Mcp-Session-Id` header
value goes through the policy's `Validate`; a validation error yields a
plain-text 400 "Invalid session ID", `isTerminated = true` yields a 404
"Session terminated", and in both cases `HandleMessage` is never invoked. -/
theorem post_policy_rejections (mgr : SessionIdManager) (req : PostRequest)
    (engine : EngineRun) (method : String)
    (hct : parseMediaType req.contentType = some "application/json")
    (hb : req.body = BodyParse.parsed method)
    (hni : method ≠ "initialize") :
    ((mgr.validate req.sessionHeader).2.isSome →
        (handlePost mgr req engine).w.statusOf = some 400
        ∧ (handlePost mgr req engine).w.body = [Frame.text "Invalid session ID\n"]
        ∧ (handlePost mgr req engine).engineCalled = false)
    ∧ (mgr.validate req.sessionHeader = (true, none) →
        (handlePost mgr req engine).w.statusOf = some 404
        ∧ (handlePost mgr req engine).w.body = [Frame.text "Session terminated\n"]
        ∧ (handlePost mgr req engine).engineCalled = false) := by
  constructor
  · intro hv
    simp [handlePost, hct, hb, hni, hv, httpError, RW.statusOf, RW.writeFrame,
      RW.writeHeader, RW.setHeader, emptyRW]
  · intro hv
    simp [handlePost, hct, hb, hni, hv, httpError, RW.statusOf, RW.writeFrame,
      RW.writeHeader, RW.setHeader, emptyRW]

/-- Witness for C3: a malformed id under the insecure-stateful policy is
rejected with 400, and a policy reporting termination yields 404. -/
theorem post_policy_rejections_witness :
    ((handlePost (insecureStatefulManager (List.replicate 16 0))
        ⟨"application/json", BodyParse.parsed "tools/call", "bogus", [], false⟩
        ⟨[], false, none⟩).w.statusOf = some 400
      ∧ (handlePost (insecureStatefulManager (List.replicate 16 0))
          ⟨"application/json", BodyParse.parsed "tools/call", "bogus", [], false⟩
          ⟨[], false, none⟩).engineCalled = false)
    ∧ ((handlePost terminatedValidateManager
        ⟨"application/json", BodyParse.parsed "tools/call", "x", [], false⟩
        ⟨[], false, none⟩).w.statusOf = some 404
      ∧ (handlePost terminatedValidateManager
          ⟨"application/json", BodyParse.parsed "tools/call", "x", [], false⟩
          ⟨[], false, none⟩).engineCalled = false) := by
  constructor
  · have h := (post_policy_rejections (insecureStatefulManager (List.replicate 16 0))
        ⟨"application/json", BodyParse.parsed "tools/call", "bogus", [], false⟩
        ⟨[], false, none⟩ "tools/call" (by decide) rfl (by decide)).1 (by decide)
    exact ⟨h.1, h.2.2⟩
  · have h := (post_policy_rejections terminatedValidateManager
        ⟨"application/json", BodyParse.parsed "tools/call", "x", [], false⟩
        ⟨[], false, none⟩ "tools/call" (by decide) rfl (by decide)).2 rfl
    exact ⟨h.1, h.2.2⟩

/-- C6: DELETE dispositions — a `Terminate` error yields 500, a refusal
yields 405 (state untouched in both), otherwise the per-session tool,
log-level and request-counter entries are purged and the status is 200;
under both built-in policies a repeated DELETE returns 200 both times and
the entries are absent after either call. -/
theorem delete_dispositions_and_idempotence (Tool : Type) (mgr : SessionIdManager)
    (st : ServerState Tool) (sessionID : String) :
    ((mgr.terminate sessionID).2.isSome →
        (handleDelete mgr st sessionID).2.statusOf = some 500
        ∧ (handleDelete mgr st sessionID).1 = st)
    ∧ (mgr.terminate sessionID = (true, none) →
        (handleDelete mgr st sessionID).2.statusOf = some 405
        ∧ (handleDelete mgr st sessionID).1 = st)
    ∧ (mgr.terminate sessionID = (false, none) →
        (handleDelete mgr st sessionID).2.statusOf = some 200
        ∧ (handleDelete mgr st sessionID).1.sessionTools sessionID = none
        ∧ (handleDelete mgr st sessionID).1.sessionLogLevels sessionID = none
        ∧ (handleDelete mgr st sessionID).1.sessionRequestIDs sessionID = none)
    ∧ (∀ mgrB : SessionIdManager,
        (mgrB = statelessManager ∨ ∃ u, mgrB = insecureStatefulManager u) →
        (handleDelete mgrB st sessionID).2.statusOf = some 200
        ∧ (handleDelete mgrB ((handleDelete mgrB st sessionID).1) sessionID).2.statusOf
            = some 200
        ∧ (handleDelete mgrB st sessionID).1.sessionTools sessionID = none
        ∧ (handleDelete mgrB st sessionID).1.sessionLogLevels sessionID = none
        ∧ (handleDelete mgrB st sessionID).1.sessionRequestIDs sessionID = none
        ∧ (handleDelete mgrB ((handleDelete mgrB st sessionID).1) sessionID).1.sessionTools
            sessionID = none
        ∧ (handleDelete mgrB ((handleDelete mgrB st sessionID).1) sessionID).1.sessionLogLevels
            sessionID = none
        ∧ (handleDelete mgrB ((handleDelete mgrB st sessionID).1) sessionID).1.sessionRequestIDs
            sessionID = none) := by
  refine ⟨?_, ?_, ?_, ?_⟩
  · intro hv
    rcases hterm : mgr.terminate sessionID with ⟨b, oe⟩
    cases oe with
    | none => rw [hterm] at hv; simp at hv
    | some e =>
        simp [handleDelete, hterm, httpError, RW.statusOf, RW.writeFrame,
          RW.writeHeader, RW.setHeader, emptyRW]
  · intro hv
    simp [handleDelete, hv, httpError, RW.statusOf, RW.writeFrame,
      RW.writeHeader, RW.setHeader, emptyRW]
  · intro hv
    simp [handleDelete, hv, RW.statusOf, RW.writeHeader, emptyRW]
  · intro mgrB hB
    have hterm : mgrB.terminate sessionID = (false, none) := by
      rcases hB with rfl | ⟨u, rfl⟩ <;> rfl
    simp [handleDelete, hterm, RW.statusOf, RW.writeHeader, emptyRW]

/-- Witness for C6: the failing policy gives 500, the refusing policy 405,
and under the stateless policy a double DELETE on a populated store returns
200 twice with the entries gone. -/
theorem delete_dispositions_witness :
    (handleDelete failingTerminationManager demoState "sid").2.statusOf = some 500
    ∧ (handleDelete refusingTerminationManager demoState "sid").2.statusOf = some 405
    ∧ (handleDelete statelessManager demoState "sid").2.statusOf = some 200
    ∧ (handleDelete statelessManager
        ((handleDelete statelessManager demoState "sid").1) "sid").2.statusOf = some 200
    ∧ (handleDelete statelessManager demoState "sid").1.sessionTools "sid" = none
    ∧ (handleDelete statelessManager demoState "sid").1.sessionLogLevels "sid" = none
    ∧ (handleDelete statelessManager demoState "sid").1.sessionRequestIDs "sid" = none := by
  refine ⟨?_, ?_, ?_, ?_, ?_, ?_, ?_⟩
  · exact ((delete_dispositions_and_idempotence Nat failingTerminationManager
      demoState "sid").1 (by decide)).1
  · exact ((delete_dispositions_and_idempotence Nat refusingTerminationManager
      demoState "sid").2.1 rfl).1
  · exact ((delete_dispositions_and_idempotence Nat statelessManager
      demoState "sid").2.2.2 statelessManager (Or.inl rfl)).1
  · exact ((delete_dispositions_and_idempotence Nat statelessManager
      demoState "sid").2.2.2 statelessManager (Or.inl rfl)).2.1
  · exact ((delete_dispositions_and_idempotence Nat statelessManager
      demoState "sid").2.2.2 statelessManager (Or.inl rfl)).2.2.1
  · exact ((delete_dispositions_and_idempotence Nat statelessManager
      demoState "sid").2.2.2 statelessManager (Or.inl rfl)).2.2.2.1
  · exact ((delete_dispositions_and_idempotence Nat statelessManager
      demoState "sid").2.2.2 statelessManager (Or.inl rfl)).2.2.2.2.1

theorem wrapInt64_eq_self (n : Int) (h1 : -9223372036854775808 ≤ n)
    (h2 : n < 9223372036854775808) : wrapInt64 n = n := by
  unfold wrapInt64
  omega

theorem pingerRun_ids (sessionID : String) (k : Nat) :
    ∀ m : String → Option Int,
      -9223372036854775808 ≤ (m sessionID).getD 0 →
      (m sessionID).getD 0 + (k : Int) ≤ 9223372036854775807 →
      (pingerRun m sessionID k).1
        = (List.range k).map
            (fun (i : Nat) => pingMessage ((m sessionID).getD 0 + 1 + (i : Int))) := by
  induction k with
  | zero => intro m _ _; rfl
  | succ n ih =>
      intro m hlo hhi
      have hwrap : wrapInt64 ((m sessionID).getD 0 + 1) = (m sessionID).getD 0 + 1 := by
        refine wrapInt64_eq_self _ (by omega) (by push_cast at hhi; omega)
      have hstep : (pingerRun m sessionID (n + 1)).1
          = pingMessage (wrapInt64 ((m sessionID).getD 0 + 1))
            :: (pingerRun
                  (fun j => if j = sessionID then
                      some (wrapInt64 ((m sessionID).getD 0 + 1)) else m j)
                  sessionID n).1 := rfl
      rw [hstep, hwrap]
      have hb : ((fun j => if j = sessionID then
            some ((m sessionID).getD 0 + 1) else m j) sessionID).getD 0
          = (m sessionID).getD 0 + 1 := by simp
      rw [ih _ (by rw [hb]; omega) (by rw [hb]; push_cast at hhi ⊢; omega)]
      rw [List.range_succ_eq_map, List.map_cons, List.map_map]
      refine congrArg₂ List.cons (by norm_num) ?_
      refine List.map_congr_left ?_
      intro i _
      simp only [Function.comp_apply, if_pos rfl]
      congr 1
      simp only [if_true, Option.getD_some, Nat.succ_eq_add_one]
      push_cast
      ring

/-- C8 counterexample: at the reachable counter state `MaxInt64`
(`9223372036854775807 = 2 ^ 63 - 1`, reached from a fresh entry after that
many calls) the underlying `atomic.Int64` wraps: the next value is
`MinInt64`, so successive calls are not unconditionally strictly
increasing. -/
theorem request_counter_wrap_counterexample :
    (nextRequestID (fun j => if j = "s" then some 9223372036854775807 else none) "s").1
      = -9223372036854775808
    ∧ ¬ ((9223372036854775807 : Int)
        < (nextRequestID
            (fun j => if j = "s" then some 9223372036854775807 else none) "s").1) := by
  constructor
  · decide
  · decide

/-- C8 amended: `nextRequestID`'s counter is a wrapping `int64`; below
`MaxInt64` each call returns the previous value plus one and stores it
(creating the entry on first use), so the value strictly increases, and
from a fresh entry the first `k ≤ MaxInt64` heartbeat ticks carry the
`ping` ids 1, 2, 3, … in order; at `MaxInt64` the counter wraps to
`MinInt64`. -/
theorem request_counter_and_ping_ids (m : String → Option Int)
    (sessionID : String) (k : Nat) :
    (-9223372036854775808 ≤ (m sessionID).getD 0 →
      (m sessionID).getD 0 < 9223372036854775807 →
        (nextRequestID m sessionID).1 = (m sessionID).getD 0 + 1
        ∧ (nextRequestID m sessionID).2 sessionID = some ((m sessionID).getD 0 + 1)
        ∧ (m sessionID).getD 0 < (nextRequestID m sessionID).1)
    ∧ (m sessionID = none → (k : Int) ≤ 9223372036854775807 →
        (pingerRun m sessionID k).1
          = (List.range k).map (fun (i : Nat) => pingMessage (1 + (i : Int)))) := by
  constructor
  · intro hlo hhi
    have hwrap : wrapInt64 ((m sessionID).getD 0 + 1) = (m sessionID).getD 0 + 1 :=
      wrapInt64_eq_self _ (by omega) (by omega)
    refine ⟨by simp [nextRequestID, hwrap], by simp [nextRequestID, hwrap], ?_⟩
    simp [nextRequestID, hwrap]
  · intro hm hk
    rw [pingerRun_ids sessionID k m (by rw [hm]; norm_num) (by rw [hm]; simpa using hk), hm]
    simp

/-- Witness for the amended C8: from a fresh counter map, three heartbeat
ticks carry the ids 1, 2 and 3 in order, and the first call returns 1. -/
theorem request_counter_and_ping_ids_witness :
    (pingerRun (fun _ => none) "s" 3).1
      = [pingMessage 1, pingMessage 2, pingMessage 3]
    ∧ (nextRequestID (fun _ => none) "s").1 = 1 := by
  constructor
  · have h := (request_counter_and_ping_ids (fun _ => none) "s" 3).2 rfl (by decide)
    simpa [List.range_succ] using h
  · have h := ((request_counter_and_ping_ids (fun _ => none) "s" 3).1
      (by decide) (by decide)).1
    simpa using h

/-- C10: `handleGet` never consults the session-id policy — its outcome is
identical under any two policies — and whenever `RegisterSession` succeeds
(on a flushable writer) it opens a 200 `text/event-stream` response using
the client-supplied header value verbatim as the session id, fabricating a
random internal UUID only when the header is absent. -/
theorem get_ignores_policy (mgr mgr2 : SessionIdManager) (req : GetRequest) :
    handleGet mgr req = handleGet mgr2 req
    ∧ (req.registerError = none → req.flusherOk = true →
        (handleGet mgr req).w.statusOf = some 200
        ∧ (handleGet mgr req).w.wireHeader "Content-Type" = some "text/event-stream"
        ∧ (handleGet mgr req).usedSessionID
            = (if req.sessionHeader = "" then req.freshUUID else req.sessionHeader)) := by
  constructor
  · rfl
  · intro hreg hfl
    refine ⟨?_, ?_, ?_⟩ <;>
      simp [handleGet, hreg, hfl, newStreamableHttpSession, RW.statusOf,
        RW.wireHeader, RW.writeHeader, RW.setHeader, emptyRW, setAssoc, headerGet]

/-- Witness for C10: a header value that the insecure-stateful policy would
reject still opens a 200 event stream, and the outcome equals the one under
a policy that reports every id as terminated. -/
theorem get_ignores_policy_witness :
    handleGet (insecureStatefulManager (List.replicate 16 0))
        ⟨"not-a-valid-id", "11111111-2222-3333-4444-555555555555", [], none, true⟩
      = handleGet terminatedValidateManager
        ⟨"not-a-valid-id", "11111111-2222-3333-4444-555555555555", [], none, true⟩
    ∧ (handleGet (insecureStatefulManager (List.replicate 16 0))
        ⟨"not-a-valid-id", "11111111-2222-3333-4444-555555555555", [], none, true⟩).w.statusOf
      = some 200
    ∧ (handleGet (insecureStatefulManager (List.replicate 16 0))
        ⟨"not-a-valid-id", "11111111-2222-3333-4444-555555555555", [], none, true⟩).usedSessionID
      = "not-a-valid-id" := by
  have h := get_ignores_policy (insecureStatefulManager (List.replicate 16 0))
    terminatedValidateManager
    ⟨"not-a-valid-id", "11111111-2222-3333-4444-555555555555", [], none, true⟩
  have h2 := h.2 rfl rfl
  exact ⟨h.1, h2.1, by rw [h2.2.2]; decide⟩

theorem RW.committed_setHeader (w : RW) (k v : String) :
    (w.setHeader k v).committed = w.committed := rfl

theorem RW.committed_writeHeader_some (w : RW) (s : Nat)
    (c : Nat × List (String × String)) (h : w.committed = some c) :
    (w.writeHeader s).committed = some c := by
  simp [RW.writeHeader, h]

theorem RW.committed_writeFrame_some (w : RW) (f : Frame)
    (c : Nat × List (String × String)) (h : w.committed = some c) :
    (w.writeFrame f).committed = some c := by
  simp [RW.writeFrame, RW.writeHeader, h]

theorem foldl_notifWriterStep_body (l : List Json) :
    ∀ st : PostWriterState, st.doneClosed = false →
      (l.foldl notifWriterStep st).w.body = st.w.body ++ l.map Frame.sse
      ∧ (l.foldl notifWriterStep st).doneClosed = false := by
  induction l with
  | nil => intro st h; simpa using h
  | cons n rest ih =>
      intro st h
      obtain ⟨hb, hd⟩ := notifWriterStep_open st n h
      obtain ⟨ihb, ihd⟩ := ih (notifWriterStep st n) hd
      exact ⟨by simp [List.foldl_cons, ihb, hb], by simp [List.foldl_cons, ihd]⟩

theorem foldl_notifWriterStep_committed (l : List Json) :
    ∀ (st : PostWriterState) (c : Nat × List (String × String)),
      st.doneClosed = false → st.upgradedHeader = true → st.w.committed = some c →
      (l.foldl notifWriterStep st).w.committed = some c
      ∧ (l.foldl notifWriterStep st).upgradedHeader = true := by
  induction l with
  | nil => intro st c _ h2 h3; exact ⟨h3, h2⟩
  | cons n rest ih =>
      intro st c h1 h2 h3
      rw [List.foldl_cons]
      apply ih (notifWriterStep st n) c
      · exact (notifWriterStep_open st n h1).2
      · simp [notifWriterStep, h1]
      · simp [notifWriterStep, h1, h2, writeSSEEvent, RW.writeFrame, RW.writeHeader, h3]

/-- The headers the notification reader (or the SSE final branch) commits. -/
theorem sse_committed_headers :
    ((((emptyRW.setHeader "Content-Type" "text/event-stream").setHeader
        "Connection" "keep-alive").setHeader "Cache-Control" "no-cache").writeHeader 200).committed
      = some (200, [("Content-Type", "text/event-stream"), ("Connection", "keep-alive"),
          ("Cache-Control", "no-cache")]) := rfl

theorem postCore_no_notifs (sessionID : String) (isInit : Bool) (req : PostRequest)
    (engine : EngineRun) (r : Json)
    (hn : engine.notifications = []) (hr : engine.response = some r)
    (hcc : req.ctxCancelled = false) :
    (postCore sessionID isInit req engine).w
      = if engine.setUpgrade then
          { pending := [("Content-Type", "text/event-stream"), ("Connection", "keep-alive"),
              ("Cache-Control", "no-cache")],
            committed := some (200, [("Content-Type", "text/event-stream"),
              ("Connection", "keep-alive"), ("Cache-Control", "no-cache")]),
            body := [Frame.sse r] }
        else if isInit ∧ sessionID ≠ "" then
          { pending := [("Content-Type", "application/json"), ("Mcp-Session-Id", sessionID)],
            committed := some (200, [("Content-Type", "application/json"),
              ("Mcp-Session-Id", sessionID)]),
            body := [Frame.jsonBody r] }
        else
          { pending := [("Content-Type", "application/json")],
            committed := some (200, [("Content-Type", "application/json")]),
            body := [Frame.jsonBody r] } := by
  by_cases hu : engine.setUpgrade
  · simp [postCore, hn, hr, hcc, hu, finalWriteCS, initialWriterState, writeSSEEvent,
      RW.writeFrame, RW.writeHeader, RW.setHeader, emptyRW, setAssoc]
  · by_cases hcond : isInit = true ∧ sessionID ≠ ""
    · simp [postCore, hn, hr, hcc, hu, hcond, finalWriteCS, initialWriterState,
        RW.writeFrame, RW.writeHeader, RW.setHeader, emptyRW, setAssoc]
    · simp [postCore, hn, hr, hcc, hu, hcond, finalWriteCS, initialWriterState,
        RW.writeFrame, RW.writeHeader, RW.setHeader, emptyRW, setAssoc]

theorem postCore_with_notifs (sessionID : String) (isInit : Bool) (req : PostRequest)
    (engine : EngineRun) (r : Json) (n : Json) (rest : List Json)
    (hn : engine.notifications = n :: rest) (hr : engine.response = some r)
    (hcc : req.ctxCancelled = false) :
    (postCore sessionID isInit req engine).w.body
        = (n :: rest).map Frame.sse
          ++ [if engine.setUpgrade then Frame.sse r else Frame.jsonBody r]
    ∧ (postCore sessionID isInit req engine).w.committed
        = some (200, [("Content-Type", "text/event-stream"), ("Connection", "keep-alive"),
            ("Cache-Control", "no-cache")]) := by
  have hfirst : notifWriterStep initialWriterState n
      = { w := { pending := [("Content-Type", "text/event-stream"),
                   ("Connection", "keep-alive"), ("Cache-Control", "no-cache")],
                 committed := some (200, [("Content-Type", "text/event-stream"),
                   ("Connection", "keep-alive"), ("Cache-Control", "no-cache")]),
                 body := [Frame.sse n] },
          upgradedHeader := true, doneClosed := false } := rfl
  obtain ⟨hbody, hdone⟩ := foldl_notifWriterStep_body rest (notifWriterStep initialWriterState n)
    (by rw [hfirst])
  obtain ⟨hcom, hupg⟩ := foldl_notifWriterStep_committed rest
    (notifWriterStep initialWriterState n)
    (200, [("Content-Type", "text/event-stream"), ("Connection", "keep-alive"),
      ("Cache-Control", "no-cache")])
    (by rw [hfirst]) (by rw [hfirst]) (by rw [hfirst])
  have hb1 : (rest.foldl notifWriterStep (notifWriterStep initialWriterState n)).w.body
      = Frame.sse n :: rest.map Frame.sse := by
    rw [hbody, hfirst]; rfl
  by_cases hu : engine.setUpgrade
  · constructor
    · simp [postCore, hn, hr, hcc, hu, finalWriteCS, hupg, writeSSEEvent,
        RW.body_writeFrame, hb1]
    · simp [postCore, hn, hr, hcc, hu, finalWriteCS, hupg, writeSSEEvent]
      exact RW.committed_writeFrame_some _ _ _ hcom
  · constructor
    · by_cases hcond : isInit = true ∧ sessionID ≠ "" <;>
        simp [postCore, hn, hr, hcc, hu, hcond, finalWriteCS, RW.body_writeFrame,
          RW.body_writeHeader, RW.body_setHeader, hb1]
    · by_cases hcond : isInit = true ∧ sessionID ≠ "" <;>
      · simp [postCore, hn, hr, hcc, hu, hcond, finalWriteCS]
        exact RW.committed_writeFrame_some _ _ _
          (RW.committed_writeHeader_some _ _ _ hcom)

theorem handlePost_toCore (mgr : SessionIdManager) (req : PostRequest)
    (engine : EngineRun) (method : String)
    (hct : parseMediaType req.contentType = some "application/json")
    (hb : req.body = BodyParse.parsed method) :
    (method = "initialize" →
        handlePost mgr req engine = postCore mgr.generate true req engine)
    ∧ (method ≠ "initialize" → mgr.validate req.sessionHeader = (false, none) →
        handlePost mgr req engine = postCore req.sessionHeader false req engine) := by
  constructor
  · intro h; simp [handlePost, hct, hb, h]
  · intro h hv; simp [handlePost, hct, hb, h, hv]

/-- C1 counterexample: a handler emits one notification but never sets the
upgrade flag.  The notification reader has already written the SSE headers
(`Content-Type: text/event-stream` on the wire), yet the final response is
written by the JSON branch as a bare JSON body — not as one more SSE event
frame — refuting the claimed "flag set *or* reader already wrote headers"
condition. -/
theorem post_framing_counterexample :
    (handlePost statelessManager
        ⟨"application/json", BodyParse.parsed "tools/call", "", [], false⟩
        ⟨[Json.str "n1"], false, some (Json.str "r")⟩).w.body
      = [Frame.sse (Json.str "n1"), Frame.jsonBody (Json.str "r")]
    ∧ (handlePost statelessManager
        ⟨"application/json", BodyParse.parsed "tools/call", "", [], false⟩
        ⟨[Json.str "n1"], false, some (Json.str "r")⟩).w.wireHeader "Content-Type"
      = some "text/event-stream"
    ∧ Frame.jsonBody (Json.str "r") ≠ Frame.sse (Json.str "r") := by
  refine ⟨rfl, rfl, ?_⟩
  intro h
  exact Frame.noConfusion h

/-- C1 amended: for a POST that reaches the engine and gets a non-nil
response (context not cancelled), the final framing is decided solely by
the session's `upgradeToSSE` flag: if set, the response is one more SSE
event frame; if not, the response is JSON-encoded directly — with
`Content-Type: application/json` at status 200 when no notification frame
preceded it (when notifications did precede, the JSON bytes follow the SSE
frames on a stream whose wire headers remain `text/event-stream`). -/
theorem post_final_framing (mgr : SessionIdManager) (req : PostRequest)
    (engine : EngineRun) (method : String) (r : Json)
    (hct : parseMediaType req.contentType = some "application/json")
    (hb : req.body = BodyParse.parsed method)
    (hsess : method = "initialize" ∨ mgr.validate req.sessionHeader = (false, none))
    (hr : engine.response = some r)
    (hcc : req.ctxCancelled = false) :
    (handlePost mgr req engine).w.body
        = engine.notifications.map Frame.sse
          ++ [if engine.setUpgrade then Frame.sse r else Frame.jsonBody r]
    ∧ (handlePost mgr req engine).w.statusOf = some 200
    ∧ (engine.setUpgrade = true →
        (handlePost mgr req engine).w.wireHeader "Content-Type"
          = some "text/event-stream")
    ∧ (engine.setUpgrade = false → engine.notifications = [] →
        (handlePost mgr req engine).w.wireHeader "Content-Type"
          = some "application/json") := by
  have hpc : ∃ sid isInit, handlePost mgr req engine = postCore sid isInit req engine := by
    by_cases hinit : method = "initialize"
    · exact ⟨mgr.generate, true, (handlePost_toCore mgr req engine method hct hb).1 hinit⟩
    · rcases hsess with h | hv
      · exact absurd h hinit
      · exact ⟨req.sessionHeader, false,
          (handlePost_toCore mgr req engine method hct hb).2 hinit hv⟩
  obtain ⟨sid, isInit, hpc⟩ := hpc
  cases hn : engine.notifications with
  | nil =>
      have hw := postCore_no_notifs sid isInit req engine r hn hr hcc
      rw [hpc, hw]
      by_cases hu : engine.setUpgrade
      · simp [hu, RW.statusOf, RW.wireHeader, headerGet]
      · by_cases hcond : isInit = true ∧ sid ≠ "" <;>
          simp [hu, hcond, RW.statusOf, RW.wireHeader, headerGet]
  | cons n rest =>
      obtain ⟨hbody, hcom⟩ := postCore_with_notifs sid isInit req engine r n rest hn hr hcc
      rw [hpc]
      refine ⟨by rw [hbody], ?_, ?_, ?_⟩
      · simp [RW.statusOf, hcom]
      · intro _; simp [RW.wireHeader, hcom, headerGet]
      · intro _ habs
        cases habs

/-- Witness for the amended C1: with the upgrade flag set the response
follows the notification as one SSE frame at status 200. -/
theorem post_final_framing_witness :
    (handlePost statelessManager
        ⟨"application/json", BodyParse.parsed "tools/call", "", [], false⟩
        ⟨[Json.str "n1"], true, some (Json.str "r")⟩).w.body
      = [Frame.sse (Json.str "n1"), Frame.sse (Json.str "r")]
    ∧ (handlePost statelessManager
        ⟨"application/json", BodyParse.parsed "tools/call", "", [], false⟩
        ⟨[Json.str "n1"], true, some (Json.str "r")⟩).w.statusOf = some 200 := by
  have h := post_final_framing statelessManager
      ⟨"application/json", BodyParse.parsed "tools/call", "", [], false⟩
      ⟨[Json.str "n1"], true, some (Json.str "r")⟩ "tools/call" (Json.str "r")
      (by decide) rfl (Or.inr rfl) rfl rfl
  exact ⟨by simpa using h.1, h.2.1⟩

theorem insecure_generate_ne_empty (u : List Nat) :
    idPrefixStr ++ String.mk (uuidStringChars u) ≠ "" := by
  intro h
  have hdat := congrArg String.data h
  rw [String.data_append] at hdat
  have h2 : idPrefixStr.data = [] := (List.append_eq_nil.mp hdat).1
  exact absurd h2 (by decide)

/-- C4 counterexample: an initialize POST whose handler sets the upgrade
flag is answered in SSE framing, and the `Mcp-Session-Id` header is absent
from the wire — refuting "this holds for every framing of the initialize
response". -/
theorem init_header_counterexample :
    (handlePost (insecureStatefulManager (List.replicate 16 0))
        ⟨"application/json", BodyParse.parsed "initialize", "", [], false⟩
        ⟨[], true, some (Json.str "ok")⟩).w.wireHeader "Mcp-Session-Id" = none
    ∧ (handlePost (insecureStatefulManager (List.replicate 16 0))
        ⟨"application/json", BodyParse.parsed "initialize", "", [], false⟩
        ⟨[], true, some (Json.str "ok")⟩).w.statusOf = some 200 := ⟨rfl, rfl⟩

/-- C4 amended: an initialize POST with a non-nil response carries the
freshly generated `Mcp-Session-Id` header (`mcp-session-<uuid>` under the
insecure-stateful policy, absent under the stateless policy) exactly when
the response is written by the JSON branch with no preceding notification
frame; under SSE framing, or after a notification already committed the
headers, the header is absent. -/
theorem init_session_header (req : PostRequest) (engine : EngineRun)
    (u : List Nat) (r : Json)
    (hct : parseMediaType req.contentType = some "application/json")
    (hb : req.body = BodyParse.parsed "initialize")
    (hr : engine.response = some r) (hcc : req.ctxCancelled = false) :
    (engine.setUpgrade = false → engine.notifications = [] →
        (handlePost (insecureStatefulManager u) req engine).w.wireHeader "Mcp-Session-Id"
          = some (idPrefixStr ++ String.mk (uuidStringChars u))
        ∧ (handlePost statelessManager req engine).w.wireHeader "Mcp-Session-Id" = none)
    ∧ (engine.setUpgrade = true →
        (handlePost (insecureStatefulManager u) req engine).w.wireHeader "Mcp-Session-Id"
          = none)
    ∧ (engine.notifications ≠ [] →
        (handlePost (insecureStatefulManager u) req engine).w.wireHeader "Mcp-Session-Id"
          = none) := by
  have hpcI : handlePost (insecureStatefulManager u) req engine
      = postCore (idPrefixStr ++ String.mk (uuidStringChars u)) true req engine :=
    (handlePost_toCore (insecureStatefulManager u) req engine "initialize" hct hb).1 rfl
  have hpcS : handlePost statelessManager req engine
      = postCore "" true req engine :=
    (handlePost_toCore statelessManager req engine "initialize" hct hb).1 rfl
  refine ⟨?_, ?_, ?_⟩
  · intro hu hn
    constructor
    · have hw := postCore_no_notifs (idPrefixStr ++ String.mk (uuidStringChars u)) true
        req engine r hn hr hcc
      rw [hpcI, hw]
      have hcond : (true = true ∧ idPrefixStr ++ String.mk (uuidStringChars u) ≠ "") :=
        ⟨rfl, insecure_generate_ne_empty u⟩
      simp [hu, hcond, RW.wireHeader, headerGet]
    · have hw := postCore_no_notifs "" true req engine r hn hr hcc
      rw [hpcS, hw]
      simp [hu, RW.wireHeader, headerGet]
  · intro hu
    cases hn : engine.notifications with
    | nil =>
        have hw := postCore_no_notifs (idPrefixStr ++ String.mk (uuidStringChars u)) true
          req engine r hn hr hcc
        rw [hpcI, hw]
        simp [hu, RW.wireHeader, headerGet]
    | cons n rest =>
        obtain ⟨_, hcom⟩ := postCore_with_notifs
          (idPrefixStr ++ String.mk (uuidStringChars u)) true req engine r n rest hn hr hcc
        rw [hpcI]
        simp [RW.wireHeader, hcom, headerGet]
  · intro hne
    cases hn : engine.notifications with
    | nil => exact absurd hn hne
    | cons n rest =>
        obtain ⟨_, hcom⟩ := postCore_with_notifs
          (idPrefixStr ++ String.mk (uuidStringChars u)) true req engine r n rest hn hr hcc
        rw [hpcI]
        simp [RW.wireHeader, hcom, headerGet]

/-- Witness for the amended C4: a plain initialize exchange echoes
`Mcp-Session-Id: mcp-session-<uuid>` under the insecure-stateful policy and
no such header under the stateless policy. -/
theorem init_session_header_witness :
    (handlePost (insecureStatefulManager (List.replicate 16 0))
        ⟨"application/json", BodyParse.parsed "initialize", "", [], false⟩
        ⟨[], false, some (Json.str "ok")⟩).w.wireHeader "Mcp-Session-Id"
      = some (idPrefixStr ++ String.mk (uuidStringChars (List.replicate 16 0)))
    ∧ (handlePost statelessManager
        ⟨"application/json", BodyParse.parsed "initialize", "", [], false⟩
        ⟨[], false, some (Json.str "ok")⟩).w.wireHeader "Mcp-Session-Id" = none := by
  have h := (init_session_header
      ⟨"application/json", BodyParse.parsed "initialize", "", [], false⟩
      ⟨[], false, some (Json.str "ok")⟩ (List.replicate 16 0) (Json.str "ok")
      (by decide) rfl rfl rfl).1 rfl rfl
  exact h

/-- C2 counterexample: a POST whose media type is not `application/json`
is answered by `http.Error` — a plain-text 400 whose wire `Content-Type` is
`text/plain; charset=utf-8` and whose body is a text message, not the
claimed JSON-RPC parse-error envelope with `Content-Type:
application/json`. -/
theorem post_malformed_counterexample :
    (handlePost statelessManager
        ⟨"text/plain", BodyParse.parsed "x", "", [], false⟩
        ⟨[], false, none⟩).w.statusOf = some 400
    ∧ (handlePost statelessManager
        ⟨"text/plain", BodyParse.parsed "x", "", [], false⟩
        ⟨[], false, none⟩).w.wireHeader "Content-Type"
      = some "text/plain; charset=utf-8"
    ∧ (handlePost statelessManager
        ⟨"text/plain", BodyParse.parsed "x", "", [], false⟩
        ⟨[], false, none⟩).w.body
      = [Frame.text "Invalid content type: must be 'application/json'\n"]
    ∧ "text/plain; charset=utf-8" ≠ "application/json" := by
  refine ⟨rfl, rfl, rfl, by decide⟩

/-- C2 amended: malformed input never reaches the engine, but the replies
differ by kind — a bad media type gets the plain-text 400 `http.Error`
"Invalid content type..."; an unreadable body or invalid JSON gets the
JSON-RPC parse error `-32700` with id null at HTTP 400 with `Content-Type:
application/json`. -/
theorem post_malformed_input (mgr : SessionIdManager) (req : PostRequest)
    (engine : EngineRun) :
    (parseMediaType req.contentType ≠ some "application/json" →
        (handlePost mgr req engine).w.statusOf = some 400
        ∧ (handlePost mgr req engine).w.wireHeader "Content-Type"
            = some "text/plain; charset=utf-8"
        ∧ (handlePost mgr req engine).w.body
            = [Frame.text "Invalid content type: must be 'application/json'\n"]
        ∧ (handlePost mgr req engine).engineCalled = false)
    ∧ (∀ e, parseMediaType req.contentType = some "application/json" →
        req.body = BodyParse.readError e →
        (handlePost mgr req engine).w.statusOf = some 400
        ∧ (handlePost mgr req engine).w.wireHeader "Content-Type"
            = some "application/json"
        ∧ (handlePost mgr req engine).w.body
            = [Frame.jsonBody (createErrorResponse Json.null PARSE_ERROR
                ("read request body error: " ++ e))]
        ∧ (handlePost mgr req engine).engineCalled = false)
    ∧ (parseMediaType req.contentType = some "application/json" →
        req.body = BodyParse.invalidJSON →
        (handlePost mgr req engine).w.statusOf = some 400
        ∧ (handlePost mgr req engine).w.wireHeader "Content-Type"
            = some "application/json"
        ∧ (handlePost mgr req engine).w.body
            = [Frame.jsonBody (createErrorResponse Json.null PARSE_ERROR
                "request body is not valid json")]
        ∧ (handlePost mgr req engine).engineCalled = false) := by
  refine ⟨?_, ?_, ?_⟩
  · intro hne
    simp [handlePost, hne, httpError, RW.statusOf, RW.wireHeader, RW.writeFrame,
      RW.writeHeader, RW.setHeader, emptyRW, setAssoc, headerGet]
  · intro e hct hbe
    simp [handlePost, hct, hbe, writeJSONRPCError, RW.statusOf, RW.wireHeader,
      RW.writeFrame, RW.writeHeader, RW.setHeader, emptyRW, setAssoc, headerGet]
  · intro hct hbe
    simp [handlePost, hct, hbe, writeJSONRPCError, RW.statusOf, RW.wireHeader,
      RW.writeFrame, RW.writeHeader, RW.setHeader, emptyRW, setAssoc, headerGet]

/-- Witness for the amended C2: an unreadable body yields the JSON-RPC
parse error at 400 with JSON content type and no engine call. -/
theorem post_malformed_input_witness :
    (handlePost statelessManager
        ⟨"application/json", BodyParse.readError "boom", "", [], false⟩
        ⟨[], false, none⟩).w.statusOf = some 400
    ∧ (handlePost statelessManager
        ⟨"application/json", BodyParse.readError "boom", "", [], false⟩
        ⟨[], false, none⟩).w.wireHeader "Content-Type" = some "application/json"
    ∧ (handlePost statelessManager
        ⟨"application/json", BodyParse.readError "boom", "", [], false⟩
        ⟨[], false, none⟩).engineCalled = false := by
  have h := (post_malformed_input statelessManager
      ⟨"application/json", BodyParse.readError "boom", "", [], false⟩
      ⟨[], false, none⟩).2.1 "boom" (by decide) rfl
  exact ⟨h.1, h.2.1, h.2.2.2⟩

theorem postCore_sessionID (sessionID : String) (isInit : Bool) (req : PostRequest)
    (engine : EngineRun) : (postCore sessionID isInit req engine).sessionID = sessionID := by
  unfold postCore
  cases engine.response
  · simp [newStreamableHttpSession]
  · by_cases hcc : req.ctxCancelled <;> simp [newStreamableHttpSession, hcc]

/-- C9 counterexample: under the stateless policy a non-initialize POST
that carries an `Mcp-Session-Id` header builds its ephemeral session with
that client-supplied value, not with the empty string. -/
theorem stateless_session_counterexample :
    (handlePost statelessManager
        ⟨"application/json", BodyParse.parsed "tools/call", "foo", [], false⟩
        ⟨[], false, some (Json.str "r")⟩).sessionID = "foo"
    ∧ "foo" ≠ "" := ⟨rfl, by decide⟩

/-- C9 amended: under the stateless policy, initialize POSTs and POSTs
without a session header build their session with the empty-string id; and
because the tool and log-level stores are process-wide maps keyed by
session id, state set through one session is observed by every other
session with the same id — so all empty-id stateless sessions share their
per-session state globally. -/
theorem stateless_shared_state :
    (∀ (req : PostRequest) (engine : EngineRun),
        parseMediaType req.contentType = some "application/json" →
        req.body = BodyParse.parsed "initialize" →
        (handlePost statelessManager req engine).sessionID = "")
    ∧ (∀ (req : PostRequest) (engine : EngineRun) (method : String),
        parseMediaType req.contentType = some "application/json" →
        req.body = BodyParse.parsed method →
        req.sessionHeader = "" →
        (handlePost statelessManager req engine).sessionID = "")
    ∧ (∀ (Tool : Type) (st : ServerState Tool) (s1 s2 : StreamableHttpSession)
        (tools : List (String × Tool)),
        s1.sessionID = s2.sessionID →
        s2.GetSessionTools (s1.SetSessionTools st tools) = some tools)
    ∧ (∀ (Tool : Type) (st : ServerState Tool) (s1 s2 : StreamableHttpSession)
        (lvl : LoggingLevel),
        s1.sessionID = s2.sessionID →
        s2.GetLogLevel (s1.SetLogLevel st lvl) = lvl) := by
  refine ⟨?_, ?_, ?_, ?_⟩
  · intro req engine hct hb
    rw [(handlePost_toCore statelessManager req engine "initialize" hct hb).1 rfl]
    exact postCore_sessionID _ _ _ _
  · intro req engine method hct hb hsh
    by_cases hinit : method = "initialize"
    · rw [(handlePost_toCore statelessManager req engine method hct hb).1 hinit]
      exact postCore_sessionID _ _ _ _
    · rw [(handlePost_toCore statelessManager req engine method hct hb).2 hinit rfl, hsh]
      exact postCore_sessionID _ _ _ _
  · intro Tool st s1 s2 tools h
    simp [StreamableHttpSession.GetSessionTools, StreamableHttpSession.SetSessionTools, h]
  · intro Tool st s1 s2 lvl h
    simp [StreamableHttpSession.GetLogLevel, StreamableHttpSession.SetLogLevel, h]

/-- Witness for the amended C9: two distinct empty-id stateless sessions
observe each other's tool override, and a header-less stateless POST gets
the empty session id. -/
theorem stateless_shared_state_witness :
    (handlePost statelessManager
        ⟨"application/json", BodyParse.parsed "tools/call", "", [], false⟩
        ⟨[], false, some (Json.str "r")⟩).sessionID = ""
    ∧ (newStreamableHttpSession "" [("b", "2")]).GetSessionTools
        ((newStreamableHttpSession "" [("a", "1")]).SetSessionTools demoState [("t", 7)])
      = some [("t", 7)] := by
  constructor
  · exact stateless_shared_state.2.1
      ⟨"application/json", BodyParse.parsed "tools/call", "", [], false⟩
      ⟨[], false, some (Json.str "r")⟩ "tools/call" (by decide) rfl rfl
  · exact stateless_shared_state.2.2.1 Nat demoState
      (newStreamableHttpSession "" [("a", "1")])
      (newStreamableHttpSession "" [("b", "2")]) [("t", 7)] rfl

end StreamableHTTP
